import Mathlib

/-!
# Verification of the smooth-web-capture Recording Session Controller

Shallow embedding of the core logic of `src/components/ScreenRecorder.tsx`
and `src/components/FormatSelector.tsx`: engine detection, codec preference
list construction, bitrate policy, the chunk buffer fed by the recorder's
data-available callback, the session state transitions (`startRecording`,
`stopRecording`, the track `ended` listener) and the download packager.

Binary media segments are modelled as lists of bytes (`List Nat`); platform
identification strings as lists of characters, with the source's regular
expression tests `/Pat/.test(userAgent)` becoming substring (infix) tests.
-/

namespace SmoothWebCapture

/-! ## Capability Detector (`detectBrowser`, `ScreenRecorder.tsx` lines 44-70) -/

/-- The source's `BrowserInfo` record: four engine flags derived from the
user-agent string plus the hardware-acceleration probe result. -/
structure BrowserInfo where
  name : String
  isChrome : Bool
  isFirefox : Bool
  isEdge : Bool
  isSafari : Bool
  supportsHardwareAcceleration : Bool
deriving DecidableEq, Repr

/-- The regular-expression test `/pat/.test(s)` for a literal pattern `pat`:
true iff `pat` occurs as a contiguous substring of `s`. -/
def testPattern (pat : List Char) : List Char → Bool
  | [] => pat.isEmpty
  | c :: rest => pat.isPrefixOf (c :: rest) || testPattern pat rest

/-- Pattern `/Chrome/` — the Chromium signature substring. -/
def chromePat : List Char := "Chrome".toList

/-- Pattern `/Firefox/` — the Gecko signature substring. -/
def firefoxPat : List Char := "Firefox".toList

/-- Pattern `/Edge/` — the legacy-Edge signature substring. -/
def edgePat : List Char := "Edge".toList

/-- Pattern `/Safari/` — the Safari signature substring. -/
def safariPat : List Char := "Safari".toList

/-- Function `detectBrowser` from `ScreenRecorder.tsx`: classifies the user agent by
substring tests in the source's order.  The WebGL probe that decides
`supportsHardwareAcceleration` is ambient platform state and enters as the
boolean argument `glAvailable` (`gl !== null`). -/
def detectBrowser (userAgent : List Char) (glAvailable : Bool) : BrowserInfo :=
  let isChrome := testPattern chromePat userAgent && !(testPattern edgePat userAgent)
  let isFirefox := testPattern firefoxPat userAgent
  let isEdge := testPattern edgePat userAgent
  let isSafari := testPattern safariPat userAgent && !(testPattern chromePat userAgent)
  let name :=
    if isChrome then "Chrome"
    else if isFirefox then "Firefox"
    else if isEdge then "Edge"
    else if isSafari then "Safari"
    else "Unknown"
  { name := name, isChrome := isChrome, isFirefox := isFirefox, isEdge := isEdge,
    isSafari := isSafari, supportsHardwareAcceleration := glAvailable }

/-! ## Codec preference list (`getOptimalCodec`, `ScreenRecorder.tsx` lines 73-117) -/

/-- Function `getOptimalCodec` from `ScreenRecorder.tsx`: the ranked codec preference
list per engine branch, with the two universal fallbacks pushed at the end. -/
def getOptimalCodec (browser : BrowserInfo) : List String :=
  let codecs :=
    if browser.isChrome && browser.supportsHardwareAcceleration then
      ["video/webm;codecs=vp9,opus",
       "video/webm;codecs=h264,opus",
       "video/mp4;codecs=h264,aac"]
    else if browser.isFirefox then
      ["video/webm;codecs=h264,opus",
       "video/mp4;codecs=h264,aac",
       "video/webm;codecs=vp9,opus"]
    else if browser.isEdge then
      ["video/mp4;codecs=h264,aac",
       "video/webm;codecs=h264,opus",
       "video/webm;codecs=vp9,opus"]
    else if browser.isSafari then
      ["video/mp4;codecs=h264,aac",
       "video/webm;codecs=h264,opus"]
    else
      ["video/webm;codecs=h264,opus",
       "video/mp4;codecs=h264,aac",
       "video/webm;codecs=vp9,opus",
       "video/webm;codecs=vp8,opus"]
  codecs ++ ["video/webm", "video/mp4"]

/-! ## Chunk buffer (`ondataavailable` handler and chunk state) -/

/-- One binary media segment (a `Blob` delivered by a `dataavailable` event),
as its byte sequence; `size` is its length. -/
abbrev Segment := List Nat

/-- The raw state update `setRecordedChunks(prev => [...prev, event.data])`:
appends one segment at the end of the buffer. -/
def appendChunk (buffer : List Segment) (data : Segment) : List Segment :=
  buffer ++ [data]

/-- The `ondataavailable` handler (`ScreenRecorder.tsx` lines 212-216):
appends the event's segment only when `event.data.size > 0`. -/
def handleDataAvailable (buffer : List Segment) (data : Segment) : List Segment :=
  if 0 < data.length then appendChunk buffer data else buffer

/-- Concatenation of the buffer, as performed by `new Blob(recordedChunks, ...)`
(the `Blob` constructor concatenates its parts in order). -/
def concatChunks (buffer : List Segment) : Segment :=
  buffer.flatten

/-! ## Bitrate policy (`ScreenRecorder.tsx` lines 133-140 and 184-205) -/

/-- The hard-coded `recordingOptions` record of the in-src recorder:
1920x1080 at 60 fps, audio as toggled by the user. -/
structure RecordingOptions where
  width : Nat
  height : Nat
  frameRate : Nat
  audio : Bool
deriving DecidableEq, Repr

/-- Value `recordingOptions` from `ScreenRecorder.tsx` lines 133-140. -/
def recordingOptions (audioEnabled : Bool) : RecordingOptions :=
  { width := 1920, height := 1080, frameRate := 60, audio := audioEnabled }

/-- The `videoBitsPerSecond` computation of `startRecording`
(`ScreenRecorder.tsx` lines 184-191): 8 Mbps base, 10 Mbps for Chrome with
hardware acceleration, 7 Mbps for Firefox.  `browserInfo` is a nullable React
state (`browserInfo?.isChrome` in the source), hence the `Option`. -/
def videoBitsPerSecondSrc (browserInfo : Option BrowserInfo) : Nat :=
  match browserInfo with
  | none => 8000000
  | some b =>
    if b.isChrome && b.supportsHardwareAcceleration then 10000000
    else if b.isFirefox then 7000000
    else 8000000

/-- The options record passed to the `MediaRecorder` constructor.  A field the
source may leave unset is an `Option`. -/
structure RecordingConfig where
  mimeType : String
  audioBitsPerSecond : Option Nat
  videoBitsPerSecond : Option Nat
deriving DecidableEq, Repr

/-- Value `recordingConfig` built by `startRecording` (`ScreenRecorder.tsx`
lines 194-205): `mimeType` and `audioBitsPerSecond: 128000` unconditionally,
then `videoBitsPerSecond` assigned in both the VBR and the CBR branch. -/
def mkRecordingConfig (mimeType : String) (useVBR : Bool) (vbps : Nat) : RecordingConfig :=
  let base : RecordingConfig :=
    { mimeType := mimeType, audioBitsPerSecond := some 128000, videoBitsPerSecond := none }
  if useVBR then
    { base with videoBitsPerSecond := some vbps }
  else
    { base with videoBitsPerSecond := some vbps }

/-- The microphone constraint object passed to `getDisplayMedia`
(`ScreenRecorder.tsx` lines 171-176). -/
structure AudioConstraints where
  echoCancellation : Bool
  noiseSuppression : Bool
  sampleRate : Nat
  channelCount : Nat
deriving DecidableEq, Repr

/-- The `audio:` field of the `getDisplayMedia` call: a constraint object when
audio is enabled, `false` (here `none`) otherwise. -/
def audioConstraintsFor (audioEnabled : Bool) : Option AudioConstraints :=
  if audioEnabled then
    some { echoCancellation := false, noiseSuppression := false,
           sampleRate := 48000, channelCount := 2 }
  else none

/-! ## Session state machine (`startRecording`, `stopRecording`, the track
`ended` listener; `ScreenRecorder.tsx` lines 162-282) -/

/-- Notifications raised to the presentation layer.  The first four are the
toasts the source actually fires; `alreadyInProgress` and `emptyBufferExport`
come from the spec's error taxonomy and exist here so that theorems can state
whether the code ever raises them. -/
inductive Notice
  | recordingStarted
  | recordingCompleted
  | recordingFailed
  | downloadStarted
  | alreadyInProgress
  | emptyBufferExport
deriving DecidableEq, Repr

/-- One capture track of the acquired display-media stream; `stopped` records
whether `track.stop()` has been called on it. -/
structure MediaTrack where
  id : Nat
  stopped : Bool
deriving DecidableEq, Repr

/-- The component state of `ScreenRecorder`: the React `useState` hooks plus
the `mediaRecorderRef`/`streamRef`/`timerRef` refs.  `tracks` holds the
platform track objects of the acquired stream (observable even after
`streamRef` is cleared), `streamHeld` whether `streamRef.current` is non-null,
`recorderPresent` whether `mediaRecorderRef.current` is non-null and
`timerRunning` whether the elapsed-time interval is active. -/
structure RecorderState where
  isRecording : Bool
  isPaused : Bool
  hasRecording : Bool
  recordedChunks : List Segment
  recordingTime : Nat
  recorderPresent : Bool
  streamHeld : Bool
  tracks : List MediaTrack
  timerRunning : Bool
deriving DecidableEq, Repr

/-- The initial hook values: everything false, empty or zero. -/
def initialState : RecorderState :=
  { isRecording := false, isPaused := false, hasRecording := false,
    recordedChunks := [], recordingTime := 0, recorderPresent := false,
    streamHeld := false, tracks := [], timerRunning := false }

/-- Call `track.stop()` on one track. -/
def stopTrack (t : MediaTrack) : MediaTrack :=
  { t with stopped := true }

/-- Function `stopRecording` (`ScreenRecorder.tsx` lines 271-282).  Guarded by
`mediaRecorderRef.current && isRecording`.  `mediaRecorder.stop()` makes the
platform fire the installed `onstop` handler exactly once (lines 218-225: set
`hasRecording`, stop the timer, raise the finished-recording notification);
then the flags are cleared and, when a stream is held, every track is stopped
and the stream reference released. -/
def stopRecording (s : RecorderState) : RecorderState × List Notice :=
  if s.recorderPresent && s.isRecording then
    let afterOnStop : RecorderState :=
      { s with hasRecording := true, timerRunning := false,
               isRecording := false, isPaused := false }
    let cleaned : RecorderState :=
      if s.streamHeld then
        { afterOnStop with tracks := afterOnStop.tracks.map stopTrack, streamHeld := false }
      else afterOnStop
    (cleaned, [Notice.recordingCompleted])
  else (s, [])

/-- The listener installed on the first video track's `ended` event
(`ScreenRecorder.tsx` lines 227-230): its body is a single call to
`stopRecording()`. -/
def handleTrackEnded (s : RecorderState) : RecorderState × List Notice :=
  stopRecording s

/-- Outcome of the asynchronous `getDisplayMedia` call: either the platform
grants a stream with its tracks, or the user cancels / permission is denied
and the promise rejects. -/
inductive AcquireResult
  | granted (tracks : List MediaTrack)
  | denied
deriving DecidableEq, Repr

/-- Function `startRecording` (`ScreenRecorder.tsx` lines 162-249).  There is
no state guard: whatever the current state, the stream is requested.  On
grant, the stream and a fresh recorder are installed, the chunk list reset,
recording flagged, the elapsed time zeroed, the timer started and the started
toast raised; on rejection the `catch` block raises the failure toast and the
state is untouched. -/
def startRecording (s : RecorderState) (result : AcquireResult) : RecorderState × List Notice :=
  match result with
  | .denied => (s, [Notice.recordingFailed])
  | .granted tks =>
      ({ s with streamHeld := true, tracks := tks, recorderPresent := true,
                recordedChunks := [], isRecording := true, recordingTime := 0,
                timerRunning := true },
       [Notice.recordingStarted])

/-! ## Export packaging (`downloadRecording`, `ScreenRecorder.tsx` lines
284-301, and `formatOptions`, `FormatSelector.tsx` lines 26-52) -/

/-- A produced download: declared media type, suggested filename and the raw
bytes of the blob. -/
structure ExportArtifact where
  mimeType : String
  filename : String
  bytes : Segment
deriving DecidableEq, Repr

/-- Function `downloadRecording` (`ScreenRecorder.tsx` lines 284-301): when
the chunk list is non-empty, build a `video/webm` blob of the concatenated
chunks, download it under `screen-recording-<timestamp>.webm` and raise the
download toast; otherwise do nothing at all.  `timestamp` is the impure
`new Date()` part of the filename, passed in as a parameter. -/
def downloadRecording (chunks : List Segment) (timestamp : String) :
    Option ExportArtifact × List Notice :=
  if 0 < chunks.length then
    (some { mimeType := "video/webm",
            filename := "screen-recording-" ++ timestamp ++ ".webm",
            bytes := concatChunks chunks },
     [Notice.downloadStarted])
  else (none, [])

/-- The `ExportFormat` union type of `FormatSelector.tsx`. -/
inductive ExportFormat
  | webm
  | mp4
  | mov
deriving DecidableEq, Repr

/-- One entry of the `formatOptions` table (the React `icon` node is
presentation and omitted; a missing `recommended` field is `false`). -/
structure FormatOption where
  format : ExportFormat
  label : String
  description : String
  mimeType : String
  extension : String
  recommended : Bool
deriving DecidableEq, Repr

/-- Table `formatOptions` from `FormatSelector.tsx` lines 26-52. -/
def formatOptions : List FormatOption :=
  [{ format := .webm, label := "WebM",
     description := "High quality, smaller file size, web optimized",
     mimeType := "video/webm", extension := "webm", recommended := true },
   { format := .mp4, label := "MP4",
     description := "Universal compatibility, good for sharing",
     mimeType := "video/mp4", extension := "mp4", recommended := false },
   { format := .mov, label := "MOV",
     description := "Professional editing, high quality",
     mimeType := "video/quicktime", extension := "mov", recommended := false }]

/-- Modelled from the spec: the format-aware export packager.  The repository
wires `FormatSelector`'s download button to an `onDownload(format)` callback,
but the component implementing that callback is not under `src/` (nothing in
`src/` renders `FormatSelector`); only the `formatOptions` table and the
webm-only `downloadRecording` are.  Following spec section 4.5, packaging
relabels the frozen buffer's bytes with the selected format's media type and
file extension taken from `formatOptions`, never re-encoding them, and
produces no artifact for an empty buffer. -/
def packageAs (chunks : List Segment) (fmt : ExportFormat) (timestamp : String) :
    Option ExportArtifact :=
  match formatOptions.find? (fun o => o.format == fmt) with
  | none => none
  | some o =>
    if 0 < chunks.length then
      some { mimeType := o.mimeType,
             filename := "screen-recording-" ++ timestamp ++ "." ++ o.extension,
             bytes := concatChunks chunks }
    else none

/-! ## Design-level bitrate policy with resolution tiers (spec section 4.2) -/

/-- A capture profile as in the spec's data model. -/
structure CaptureProfile where
  width : Nat
  height : Nat
  frameRate : Nat
  audioEnabled : Bool
deriving DecidableEq, Repr

/-- The two resolution tiers of the spec's bitrate policy. -/
inductive ResolutionTier
  | standard
  | high
deriving DecidableEq, Repr

/-- A profile is in the high tier when it targets at least 1080 lines (the
in-src recorder's hard-coded 1920x1080 profile). -/
def tierOf (p : CaptureProfile) : ResolutionTier :=
  if 1080 ≤ p.height then .high else .standard

/-- The spec's `BitrateConfig` record. -/
structure BitrateConfig where
  videoBitsPerSecond : Nat
  audioBitsPerSecond : Nat
  variableRate : Bool
deriving DecidableEq, Repr

/-- Modelled from the spec: the base video bitrate per resolution tier.  Only
the high-tier (1080p60) recorder variant is under `src/`; its 8 Mbps base is
taken from `ScreenRecorder.tsx` line 185.  The spec records that the
repository's other recorder variants differ in resolution tier and that the
base "scales with target resolution tier (two tiers supported)", so the
standard tier receives a strictly smaller base, modelled at half. -/
def tierBase : ResolutionTier → Nat
  | .high => 8000000
  | .standard => 4000000

/-- Modelled from the spec: `computeBitrate(engine, profile, variable)`
(spec section 4.2).  The engine terms reproduce the in-src constants: Chrome
with hardware acceleration gets a 25 percent bonus on the base (8 to 10 Mbps
at the high tier) and Firefox a 12.5 percent discount (8 to 7 Mbps); audio is
the fixed 128 kbps constant when enabled and zero when disabled; the
`variable` flag is carried through without changing the magnitude. -/
def computeBitrate (engine : BrowserInfo) (profile : CaptureProfile) (vbr : Bool) :
    BitrateConfig :=
  let base := tierBase (tierOf profile)
  let video :=
    if engine.isChrome && engine.supportsHardwareAcceleration then base * 5 / 4
    else if engine.isFirefox then base * 7 / 8
    else base
  { videoBitsPerSecond := video,
    audioBitsPerSecond := if profile.audioEnabled then 128000 else 0,
    variableRate := vbr }

/-! ## Concrete sample inputs used by counterexamples and witnesses -/

/-- A state in the middle of a recording: recorder installed, stream held with
one live track, timer running. -/
def sampleRecordingState : RecorderState :=
  { isRecording := true, isPaused := false, hasRecording := false,
    recordedChunks := [[1, 2, 3]], recordingTime := 5, recorderPresent := true,
    streamHeld := true, tracks := [{ id := 0, stopped := false }],
    timerRunning := true }

/-- Chromium-class engine with the hardware-acceleration probe succeeding. -/
def chromeHWEngine : BrowserInfo :=
  { name := "Chrome", isChrome := true, isFirefox := false, isEdge := false,
    isSafari := false, supportsHardwareAcceleration := true }

/-- Chromium-class engine without hardware acceleration. -/
def chromeNoHWEngine : BrowserInfo :=
  { name := "Chrome", isChrome := true, isFirefox := false, isEdge := false,
    isSafari := false, supportsHardwareAcceleration := false }

/-- Gecko-class engine. -/
def firefoxEngine : BrowserInfo :=
  { name := "Firefox", isChrome := false, isFirefox := true, isEdge := false,
    isSafari := false, supportsHardwareAcceleration := true }

/-- A legacy-Edge user agent: it contains the Chromium signature, the Safari
signature and the Edge signature all at once. -/
def legacyEdgeUA : List Char := "Chrome Safari Edge".toList

/-- A modern Chromium user agent: Chromium and Safari signatures, no Edge. -/
def chromeSafariUA : List Char := "Chrome Safari".toList

/-- A user agent matching none of the four signatures. -/
def operaUA : List Char := "Opera".toList

/-- A standard-tier capture profile (720p30). -/
def standardProfile : CaptureProfile :=
  { width := 1280, height := 720, frameRate := 30, audioEnabled := true }

/-- The high-tier capture profile of the in-src recorder (1080p60). -/
def highProfile : CaptureProfile :=
  { width := 1920, height := 1080, frameRate := 60, audioEnabled := true }

/-! ## Helper lemmas -/

/-- Folding raw appends over an accumulator appends the fed segments. -/
theorem foldl_appendChunk (segs : List Segment) :
    ∀ acc : List Segment, segs.foldl appendChunk acc = acc ++ segs := by
  induction segs with
  | nil => simp
  | cons s rest ih =>
      intro acc
      simp [appendChunk, ih]

/-- The guarded data-available handler preserves the all-segments-non-empty
invariant of the buffer. -/
theorem foldl_handleDataAvailable_nonempty (events : List Segment) :
    ∀ acc : List Segment, (∀ c ∈ acc, c ≠ []) →
      ∀ c ∈ events.foldl handleDataAvailable acc, c ≠ [] := by
  induction events with
  | nil => intro acc hacc; simpa using hacc
  | cons ev rest ih =>
      intro acc hacc
      refine ih (handleDataAvailable acc ev) ?_
      intro c hc
      unfold handleDataAvailable at hc
      by_cases hev : 0 < ev.length
      · rw [if_pos hev] at hc
        rcases List.mem_append.mp hc with h | h
        · exact hacc c h
        · rcases List.mem_singleton.mp h with rfl
          intro hnil
          rw [hnil] at hev
          exact absurd hev (by simp)
      · rw [if_neg hev] at hc
        exact hacc c hc

/-! ## Claims -/

/-- C2: for every sequence of segments appended to the chunk buffer,
concatenating the buffer yields exactly those segments in insertion order; in
particular a buffer fed `[A, B, C]` concatenates to `A ++ B ++ C`, never a
permutation, deduplication or reordering. -/
theorem chunk_append_order_preserved (segs : List Segment) (A B C : Segment) :
    concatChunks (segs.foldl appendChunk []) = segs.flatten ∧
    concatChunks (appendChunk (appendChunk (appendChunk [] A) B) C) = A ++ B ++ C := by
  constructor
  · rw [foldl_appendChunk segs [], List.nil_append]; rfl
  · simp [appendChunk, concatChunks]

/-- C3: for every detected engine, the codec preference list is non-empty and
its last two entries are the two universal fallbacks: the bare webm container
followed by the bare mp4 container with no explicit codec string. -/
theorem codec_list_has_universal_fallbacks (b : BrowserInfo) :
    getOptimalCodec b ≠ [] ∧
    (["video/webm", "video/mp4"] : List String) <:+ getOptimalCodec b := by
  unfold getOptimalCodec
  exact ⟨by simp, ⟨_, rfl⟩⟩

/-- C10: a data-available event appends its segment to the chunk buffer iff
the segment's byte size is strictly positive; hence every stored segment is
non-empty, and a non-empty sequence of flush callbacks can still leave the
buffer empty. -/
theorem dataavailable_appends_iff_positive (buffer : List Segment) (data : Segment)
    (events : List Segment) :
    (handleDataAvailable buffer data = appendChunk buffer data ↔ 0 < data.length) ∧
    (∀ c ∈ events.foldl handleDataAvailable [], c ≠ []) ∧
    (∃ evs : List Segment, evs ≠ [] ∧ evs.foldl handleDataAvailable [] = []) := by
  refine ⟨⟨fun h => ?_, fun h => by simp [handleDataAvailable, h]⟩,
          foldl_handleDataAvailable_nonempty events [] (by simp),
          ⟨[[]], by simp, by simp [handleDataAvailable, appendChunk]⟩⟩
  by_contra hlen
  have hdata : data.length = 0 := Nat.eq_zero_of_not_pos hlen
  rw [handleDataAvailable, if_neg hlen] at h
  have := congrArg List.length h
  simp [appendChunk] at this

/-- C1: for a session in the Recording state, the external-revocation handler
(the capture track's `ended` listener) behaves exactly as an explicit
`stopRecording` call: identical resulting state and notifications; the
finished-recording notification is raised exactly once, the session reaches
the terminal stopped configuration, the stream reference is released and every
capture track is stopped. -/
theorem external_revocation_equals_stop (s : RecorderState)
    (hrecorder : s.recorderPresent = true) (hrec : s.isRecording = true)
    (hstream : s.streamHeld = true) :
    handleTrackEnded s = stopRecording s ∧
    (handleTrackEnded s).2.count Notice.recordingCompleted = 1 ∧
    (handleTrackEnded s).1.isRecording = false ∧
    (handleTrackEnded s).1.hasRecording = true ∧
    (handleTrackEnded s).1.streamHeld = false ∧
    (handleTrackEnded s).1.timerRunning = false ∧
    ∀ t ∈ (handleTrackEnded s).1.tracks, t.stopped = true := by
  refine ⟨rfl, ?_⟩
  simp only [handleTrackEnded, stopRecording, hrecorder, hrec, hstream]
  refine ⟨by simp, by simp, by simp, by simp, by simp, ?_⟩
  intro t ht
  simp only [Bool.and_self, if_true] at ht
  rcases List.mem_map.mp ht with ⟨u, _, rfl⟩
  rfl

/-- C1 witness: the revocation handler at a concrete mid-recording state. -/
theorem external_revocation_equals_stop_witness :
    handleTrackEnded sampleRecordingState = stopRecording sampleRecordingState ∧
    (handleTrackEnded sampleRecordingState).2.count Notice.recordingCompleted = 1 ∧
    (handleTrackEnded sampleRecordingState).1.isRecording = false ∧
    (handleTrackEnded sampleRecordingState).1.hasRecording = true ∧
    (handleTrackEnded sampleRecordingState).1.streamHeld = false ∧
    (handleTrackEnded sampleRecordingState).1.timerRunning = false ∧
    ∀ t ∈ (handleTrackEnded sampleRecordingState).1.tracks, t.stopped = true :=
  external_revocation_equals_stop sampleRecordingState rfl rfl rfl

/-- C4: packaging a non-empty frozen buffer in a selected export format yields
an artifact whose declared media type is that format's mime type, whose
suggested filename ends in that format's extension, and whose bytes are
exactly the concatenated buffer, never re-encoded. -/
theorem export_relabels_without_reencoding (chunks : List Segment) (fmt : ExportFormat)
    (ts : String) (hne : chunks ≠ []) :
    ∃ stem : String,
      packageAs chunks fmt ts =
        some { mimeType := (match fmt with
                 | .webm => "video/webm" | .mp4 => "video/mp4" | .mov => "video/quicktime"),
               filename := stem ++ "." ++ (match fmt with
                 | .webm => "webm" | .mp4 => "mp4" | .mov => "mov"),
               bytes := concatChunks chunks } := by
  have hlen : 0 < chunks.length := List.length_pos.mpr hne
  refine ⟨"screen-recording-" ++ ts, ?_⟩
  cases fmt <;> simp [packageAs, formatOptions, hlen]

/-- C4 witness: packaging two chunks as mp4. -/
theorem export_relabels_without_reencoding_witness :
    ∃ stem : String,
      packageAs [[7, 8]] ExportFormat.mp4 "T" =
        some { mimeType := "video/mp4", filename := stem ++ "." ++ "mp4",
               bytes := concatChunks [[7, 8]] } :=
  export_relabels_without_reencoding [[7, 8]] ExportFormat.mp4 "T" (by decide)

/-- C5 counterexample: downloading with an empty buffer is a silent no-op —
no artifact, and no notification at all, in particular no empty-buffer-export
error, contradicting the claim that an error is reported. -/
theorem export_empty_buffer_silent_counterexample :
    downloadRecording [] "T" = (none, []) ∧
    Notice.emptyBufferExport ∉ (downloadRecording [] "T").2 := by
  constructor
  · rfl
  · simp [downloadRecording]

/-- C5 (amended): `downloadRecording` guards only on buffer non-emptiness and
consults no session state: an empty buffer yields no artifact and no
notification (a silent no-op rather than a reported error), while a non-empty
buffer always yields the webm artifact of the concatenated bytes together with
the download notice. -/
theorem download_guards_only_nonemptiness (chunks : List Segment) (ts : String) :
    (chunks = [] → downloadRecording chunks ts = (none, [])) ∧
    (chunks ≠ [] → ∃ a : ExportArtifact,
      downloadRecording chunks ts = (some a, [Notice.downloadStarted]) ∧
      a.mimeType = "video/webm" ∧ a.bytes = concatChunks chunks) := by
  constructor
  · rintro rfl; rfl
  · intro hne
    have hlen : 0 < chunks.length := List.length_pos.mpr hne
    exact ⟨{ mimeType := "video/webm",
             filename := "screen-recording-" ++ ts ++ ".webm",
             bytes := concatChunks chunks },
           by simp [downloadRecording, hlen], rfl, rfl⟩

/-- C5 witness: the empty and a singleton buffer. -/
theorem download_guards_only_nonemptiness_witness :
    downloadRecording ([] : List Segment) "T" = (none, []) ∧
    ∃ a : ExportArtifact,
      downloadRecording [[5]] "T" = (some a, [Notice.downloadStarted]) ∧
      a.mimeType = "video/webm" ∧ a.bytes = concatChunks [[5]] :=
  ⟨(download_guards_only_nonemptiness [] "T").1 rfl,
   (download_guards_only_nonemptiness [[5]] "T").2 (by decide)⟩

/-- C6 counterexample: from a concrete Recording-state session, a re-entrant
`startRecording` call that is granted a stream raises only the started toast —
never an already-in-progress failure — and installs the second capture stream,
replacing the previous track list. -/
theorem reentrant_start_unguarded_counterexample :
    sampleRecordingState.isRecording = true ∧
    (startRecording sampleRecordingState
        (AcquireResult.granted [{ id := 1, stopped := false }])).2
      = [Notice.recordingStarted] ∧
    Notice.alreadyInProgress ∉ (startRecording sampleRecordingState
        (AcquireResult.granted [{ id := 1, stopped := false }])).2 ∧
    (startRecording sampleRecordingState
        (AcquireResult.granted [{ id := 1, stopped := false }])).1.tracks
      = [{ id := 1, stopped := false }] ∧
    (startRecording sampleRecordingState
        (AcquireResult.granted [{ id := 1, stopped := false }])).1.streamHeld = true := by
  refine ⟨rfl, rfl, ?_, rfl, rfl⟩
  simp [startRecording]

/-- C6 (amended): `startRecording` has no in-progress guard: from any state —
including Acquiring or Recording — it never raises an already-in-progress
failure; when the platform grants a stream it acquires it, overwriting the
held stream and track list, and when the platform denies it only the generic
failure toast is raised.  Re-entrancy is prevented only by the presentation
layer hiding the start button while recording. -/
theorem start_has_no_reentrancy_guard (s : RecorderState) (tks : List MediaTrack) :
    (startRecording s (AcquireResult.granted tks)).2 = [Notice.recordingStarted] ∧
    Notice.alreadyInProgress ∉ (startRecording s (AcquireResult.granted tks)).2 ∧
    (startRecording s (AcquireResult.granted tks)).1.tracks = tks ∧
    (startRecording s (AcquireResult.granted tks)).1.isRecording = true ∧
    (startRecording s (AcquireResult.granted tks)).1.streamHeld = true ∧
    (startRecording s AcquireResult.denied).2 = [Notice.recordingFailed] ∧
    Notice.alreadyInProgress ∉ (startRecording s AcquireResult.denied).2 := by
  refine ⟨rfl, ?_, rfl, rfl, rfl, rfl, ?_⟩ <;> simp [startRecording]

/-- C7: the base video bitrate depends on the capture profile's resolution
tier — a standard-tier and a high-tier profile receive different base values
for every engine and mode — while a hardware-acceleration bonus raises the
base and a distinct engine-specific adjustment applies per engine class; at
the high tier the policy coincides with the in-src
`videoBitsPerSecond` constants. -/
theorem bitrate_tier_policy :
    (tierOf standardProfile = ResolutionTier.standard ∧
     tierOf highProfile = ResolutionTier.high ∧
     ∀ (e : BrowserInfo) (v : Bool),
       (computeBitrate e standardProfile v).videoBitsPerSecond ≠
       (computeBitrate e highProfile v).videoBitsPerSecond) ∧
    (∀ (p : CaptureProfile) (v : Bool),
       (computeBitrate chromeNoHWEngine p v).videoBitsPerSecond <
       (computeBitrate chromeHWEngine p v).videoBitsPerSecond) ∧
    (∀ (p : CaptureProfile) (v : Bool),
       (computeBitrate firefoxEngine p v).videoBitsPerSecond ≠
       (computeBitrate chromeNoHWEngine p v).videoBitsPerSecond) ∧
    (∀ (v audio : Bool),
       (computeBitrate chromeHWEngine (CaptureProfile.mk 1920 1080 60 audio) v).videoBitsPerSecond
         = videoBitsPerSecondSrc (some chromeHWEngine) ∧
       (computeBitrate firefoxEngine (CaptureProfile.mk 1920 1080 60 audio) v).videoBitsPerSecond
         = videoBitsPerSecondSrc (some firefoxEngine) ∧
       (computeBitrate chromeNoHWEngine (CaptureProfile.mk 1920 1080 60 audio) v).videoBitsPerSecond
         = videoBitsPerSecondSrc (some chromeNoHWEngine)) := by
  refine ⟨⟨rfl, rfl, ?_⟩, ?_, ?_, ?_⟩
  · intro e v
    obtain ⟨n, c, f, ed, sa, hw⟩ := e
    cases c <;> cases f <;> cases hw <;>
      simp [computeBitrate, standardProfile, highProfile, tierOf, tierBase]
  · intro p v
    cases h : tierOf p <;>
      simp [computeBitrate, chromeHWEngine, chromeNoHWEngine, h, tierBase]
  · intro p v
    cases h : tierOf p <;>
      simp [computeBitrate, firefoxEngine, chromeNoHWEngine, h, tierBase]
  · intro v audio
    refine ⟨?_, ?_, ?_⟩ <;>
      simp [computeBitrate, chromeHWEngine, chromeNoHWEngine, firefoxEngine,
            tierOf, tierBase, videoBitsPerSecondSrc]

/-- C8 counterexample: with audio disabled — the capture constraints carry no
audio — the encoder configuration built by `startRecording` still declares an
audio bitrate of 128000, neither zero nor absent, refuting the claim that it
is zero or absent whenever audio is disabled. -/
theorem audio_bitrate_counterexample :
    audioConstraintsFor false = none ∧
    (mkRecordingConfig "video/webm" true 8000000).audioBitsPerSecond = some 128000 ∧
    (mkRecordingConfig "video/webm" true 8000000).audioBitsPerSecond ≠ none ∧
    (mkRecordingConfig "video/webm" true 8000000).audioBitsPerSecond ≠ some 0 := by
  refine ⟨rfl, rfl, ?_, ?_⟩ <;> simp [mkRecordingConfig]

/-- C8 (amended): the audio bitrate in the encoder configuration is the fixed
constant 128000 for every mime type, rate-control mode and video bitrate,
regardless of whether audio is enabled; disabling audio is expressed only in
the capture constraints passed to `getDisplayMedia`, never in the encoder
configuration. -/
theorem audio_bitrate_fixed_constant (mime : String) (vbr : Bool) (vbps : Nat) :
    (mkRecordingConfig mime vbr vbps).audioBitsPerSecond = some 128000 ∧
    audioConstraintsFor false = none ∧
    audioConstraintsFor true =
      some { echoCancellation := false, noiseSuppression := false,
             sampleRate := 48000, channelCount := 2 } := by
  refine ⟨?_, rfl, rfl⟩
  unfold mkRecordingConfig
  cases vbr <;> rfl

/-- C9 counterexample: a legacy-Edge identification string matches both the
Chromium signature and the Safari signature, yet the detector classifies it as
the Edge class, not the Chromium class — the Edge test suppresses the
Chromium match, so matching both signatures does not always yield
Chromium-class. -/
theorem engine_precedence_counterexample :
    testPattern chromePat legacyEdgeUA = true ∧
    testPattern safariPat legacyEdgeUA = true ∧
    (detectBrowser legacyEdgeUA true).name = "Edge" ∧
    (detectBrowser legacyEdgeUA true).isChrome = false := by
  refine ⟨by decide, by decide, by decide, by decide⟩

/-- C9 (amended): Chromium-before-Safari precedence holds away from the Edge
signature: a string matching both the Chromium and Safari signatures
classifies as Chromium-class provided it does not also match the Edge
signature; when the Edge signature matches too (and Firefox's does not, as in
legacy Edge user agents) it classifies as the Edge class; and a string
matching no known signature classifies as Unknown. -/
theorem engine_precedence (ua : List Char) (gl : Bool) :
    (testPattern chromePat ua = true → testPattern safariPat ua = true →
      testPattern edgePat ua = false → (detectBrowser ua gl).name = "Chrome") ∧
    (testPattern chromePat ua = true → testPattern safariPat ua = true →
      testPattern edgePat ua = true → testPattern firefoxPat ua = false →
      (detectBrowser ua gl).name = "Edge") ∧
    (testPattern chromePat ua = false → testPattern firefoxPat ua = false →
      testPattern edgePat ua = false → testPattern safariPat ua = false →
      (detectBrowser ua gl).name = "Unknown") := by
  refine ⟨?_, ?_, ?_⟩
  · intro h1 h2 h3
    simp [detectBrowser, h1, h2, h3]
  · intro h1 h2 h3 h4
    simp [detectBrowser, h1, h2, h3, h4]
  · intro h1 h2 h3 h4
    simp [detectBrowser, h1, h2, h3, h4]

/-- C9 witness: a modern Chromium string, a legacy Edge string and a string
with no known signature. -/
theorem engine_precedence_witness :
    (detectBrowser chromeSafariUA true).name = "Chrome" ∧
    (detectBrowser legacyEdgeUA true).name = "Edge" ∧
    (detectBrowser operaUA true).name = "Unknown" :=
  ⟨(engine_precedence chromeSafariUA true).1 (by decide) (by decide) (by decide),
   (engine_precedence legacyEdgeUA true).2.1 (by decide) (by decide) (by decide) (by decide),
   (engine_precedence operaUA true).2.2 (by decide) (by decide) (by decide) (by decide)⟩

end SmoothWebCapture
